import Mathlib

/-!
Verification development for the interviewly repository, a browser-based
mock-interview coach.  The definitions below are a shallow embedding of the
TypeScript sources:

* `src/utils/interviewService.ts` (the Question/Feedback client:
  `generateQuestions`, `getAIFeedback`, the retry loop, the JSON extraction
  regexes and the deterministic fallback tables);
* `src/components/InterviewRoom.tsx` (the conversation controller: the
  `conversationState` machine, `handleSubmitResponse`, `handleNext`,
  `handleSpeechComplete`, `handleRestartInterview`);
* `src/utils/textToSpeech.ts` (the speech output adapter: `stop`,
  `isSpeaking`, the module-level key state `setApiKey` / `hasApiKey`);
* `src/components/ApiKeyModal.tsx` (the mount effect that installs a
  hardcoded ElevenLabs key when none is stored).

Network effects are made explicit: each remote attempt of the Gemini client
is an element of a list of `Option` outcomes (`none` = network error,
timeout, or malformed/unextractable JSON; `some v` = a successfully parsed
value), consumed by the same bounded retry loop the source runs.
-/

namespace Interviewly

/-- `UserProfile` from src/utils/interviewService.ts. -/
structure UserProfile where
  name : String
  field : String
  role : String
  experienceLevel : String
deriving DecidableEq

/-- `InterviewQuestion` from src/utils/interviewService.ts.  The `topic`
field is optional because the follow-up questions appended by
`InterviewRoom.handleSubmitResponse` are created without a topic. -/
structure InterviewQuestion where
  id : Nat
  question : String
  category : String
  topic : Option String
deriving DecidableEq

/-- `Feedback` from src/utils/interviewService.ts. -/
structure Feedback where
  positive : Bool
  contentFeedback : String
  deliveryFeedback : String
  improvementTips : Option String
  followUpQuestion : Option String
deriving DecidableEq

/-! ### String utilities mirroring the JavaScript primitives used -/

/-- `startsWithChars l pat`: `l` begins with `pat` (character-exact, as JS
string comparison is). -/
def startsWithChars : List Char → List Char → Bool
  | _, [] => true
  | [], _ :: _ => false
  | a :: as, b :: bs => a == b && startsWithChars as bs

/-- `containsChars l pat`: some suffix of `l` begins with `pat`; this is the
semantics of JavaScript `String.prototype.includes`. -/
def containsChars : List Char → List Char → Bool
  | [], pat => pat.isEmpty
  | a :: rest, pat => startsWithChars (a :: rest) pat || containsChars rest pat

/-- JavaScript `s.includes(sub)`. -/
def strIncludes (s sub : String) : Bool :=
  containsChars s.data sub.data

/-- JavaScript `response.split(' ').length`: splitting at a single-character
separator produces one fragment per separator occurrence plus one (empty
fragments count, exactly as in `String.prototype.split`). -/
def wordCount (s : String) : Nat :=
  s.data.count ' ' + 1

/-- JavaScript `String.prototype.trim` (used by the controller to reject
blank answers): strip whitespace from both ends. -/
def jsTrim (s : String) : String :=
  String.mk (((s.data.dropWhile Char.isWhitespace).reverse.dropWhile
    Char.isWhitespace).reverse)

/-- `hasSpecificExamples` in `getAIFeedback`'s fallback:
`response.includes("example") || response.includes("instance") ||
response.includes("situation")`. -/
def hasSpecificExamples (s : String) : Bool :=
  strIncludes s "example" || strIncludes s "instance" || strIncludes s "situation"

/-- One step of the scan for the regex `\d+%|\d+ years|\d+ projects`:
the tail directly after a digit must begin with `%`, ` years` or
` projects`. -/
def figureTail (l : List Char) : Bool :=
  startsWithChars l ['%'] || startsWithChars l " years".data ||
    startsWithChars l " projects".data

/-- Scanner for `/\d+%|\d+ years|\d+ projects/.test(response)`:
the regex matches iff some digit of the text is immediately followed by
`%`, ` years` or ` projects` (the last digit of the `\d+` run). -/
def figuresAux : List Char → Bool
  | [] => false
  | c :: rest => (c.isDigit && figureTail rest) || figuresAux rest

/-- `usesConcreteFigures` in `getAIFeedback`'s fallback:
`/\d+%|\d+ years|\d+ projects/.test(response)`. -/
def usesConcreteFigures (s : String) : Bool :=
  figuresAux s.data

/-! ### The bounded retry loop shared by `generateQuestions` / `getAIFeedback`

Both functions run `while (attempts < maxAttempts)` around the remote call,
with `await new Promise(resolve => setTimeout(resolve, 1000))` between
consecutive attempts.  `retryAux outs fuel` consumes the per-attempt
outcomes in `outs` (at most `fuel` of them) and returns the first success
together with the number of attempts actually made and the list of sleep
durations (in ms) performed between attempts. -/

def retryAux {α : Type} : List (Option α) → Nat → Option α × Nat × List Nat
  | _, 0 => (none, 0, [])
  | outs, r + 1 =>
    match outs.headD none with
    | some v => (some v, 1, [])
    | none =>
      if r = 0 then (none, 1, [])
      else
        let t := retryAux outs.tail r
        (t.1, t.2.1 + 1, 1000 :: t.2.2)

/-! ### The fallback question tables of `generateQuestions` -/

/-- The fallback question table built in the `catch` branch of
`generateQuestions`: three introduction questions, then a field-keyed block
(`"Software Engineering"` / `"Marketing"` / generic), then an extra block
keyed on the experience level (`includes("Beginner")` /
`includes("Senior")`). -/
def fallbackQuestions (p : UserProfile) : List InterviewQuestion :=
  let base : List InterviewQuestion :=
    [ { id := 1,
        question := "Hello " ++ p.name ++ ", please tell me a bit about yourself and your background.",
        category := "Introduction", topic := some "Getting to know you" },
      { id := 2,
        question := "Why are you interested in this " ++ p.role ++ " position?",
        category := "Introduction", topic := some "Motivation" },
      { id := 3,
        question := "What motivated you to pursue a career in the " ++ p.field ++ " field?",
        category := "Introduction", topic := some "Career Path" } ]
  let withField : List InterviewQuestion :=
    if p.field = "Software Engineering" then
      base ++
        [ { id := 4,
            question := "Based on your experience as a " ++ p.role ++ ", tell me about a challenging project you worked on and how you approached it.",
            category := "Experience", topic := some "Project Experience" },
          { id := 5,
            question := "How do you stay updated with the latest technologies and tools in your field?",
            category := "Professional Development", topic := some "Continuous Learning" },
          { id := 6,
            question := "Explain how you would handle a situation where you disagreed with a team member\x27s technical approach.",
            category := "Teamwork", topic := some "Conflict Resolution" },
          { id := 7,
            question := "Describe your process for debugging a complex technical issue.",
            category := "Technical Skills", topic := some "Debugging" },
          { id := 8,
            question := "What programming languages or frameworks are you most comfortable with, and why?",
            category := "Technical Skills", topic := some "Tech Stack" },
          { id := 9,
            question := "Where do you see yourself professionally in the next 3-5 years?",
            category := "Career Goals", topic := some "Future Plans" },
          { id := 10,
            question := "Tell me about a time when you had to meet a tight deadline. How did you manage your time and resources?",
            category := "Problem Solving", topic := some "Time Management" } ]
    else if p.field = "Marketing" then
      base ++
        [ { id := 4,
            question := "Describe a marketing campaign you worked on that was particularly successful as a " ++ p.role ++ ".",
            category := "Experience", topic := some "Campaign Success" },
          { id := 5,
            question := "How do you measure the success of your marketing initiatives?",
            category := "Analytics", topic := some "Metrics and KPIs" },
          { id := 6,
            question := "Tell me about a time when a marketing campaign didn\x27t meet expectations. What did you learn?",
            category := "Problem Solving", topic := some "Learning from Failure" },
          { id := 7,
            question := "How do you stay current with changing marketing trends and technologies?",
            category := "Professional Development", topic := some "Industry Trends" },
          { id := 8,
            question := "Describe your approach to understanding a target audience for a new product.",
            category := "Strategy", topic := some "Audience Research" },
          { id := 9,
            question := "What marketing tools and platforms are you most experienced with?",
            category := "Technical Skills", topic := some "Marketing Tools" },
          { id := 10,
            question := "Tell me about how you\x27ve collaborated with other teams, such as sales or product development.",
            category := "Teamwork", topic := some "Cross-functional Collaboration" } ]
    else
      base ++
        [ { id := 4,
            question := "Tell me more specifically about your background and experience related to the " ++ p.role ++ " position.",
            category := "Experience", topic := some "Relevant Experience" },
          { id := 5,
            question := "What are your greatest professional strengths and how do they help you in your work?",
            category := "Self-Assessment", topic := some "Strengths" },
          { id := 6,
            question := "Describe a challenging situation at work and how you handled it.",
            category := "Problem Solving", topic := some "Challenge Resolution" },
          { id := 7,
            question := "How do you prioritize your work when dealing with multiple deadlines?",
            category := "Time Management", topic := some "Prioritization" },
          { id := 8,
            question := "What tools or methodologies are you familiar with that relate to this role?",
            category := "Technical Skills", topic := some "Tools and Methodologies" },
          { id := 9,
            question := "Describe a time when you had to adapt to a significant change at work.",
            category := "Adaptability", topic := some "Handling Change" },
          { id := 10,
            question := "Why are you interested in this particular role and company?",
            category := "Motivation", topic := some "Company Fit" } ]
  if strIncludes p.experienceLevel "Beginner" then
    withField ++
      [ { id := 11,
          question := "What skills are you hoping to develop in this role?",
          category := "Growth", topic := some "Skill Development" } ]
  else if strIncludes p.experienceLevel "Senior" then
    withField ++
      [ { id := 11,
          question := "How do you approach mentoring junior team members?",
          category := "Leadership", topic := some "Mentorship" },
        { id := 12,
          question := "Tell me about a time when you had to make a difficult decision as a leader.",
          category := "Leadership", topic := some "Decision Making" } ]
  else
    withField

/-- `generateQuestions` of src/utils/interviewService.ts: up to 3 attempts
against the remote endpoint (each `outs` entry is one attempt's outcome);
the first parsed success is returned as is, and on exhaustion the function
falls back to the deterministic profile-keyed table instead of throwing. -/
def generateQuestions (p : UserProfile)
    (outs : List (Option (List InterviewQuestion))) : List InterviewQuestion :=
  match (retryAux outs 3).1 with
  | some qs => qs
  | none => fallbackQuestions p

/-- The heuristic `positive` flag of `getAIFeedback`'s fallback:
`wordCount > 30 && (hasSpecificExamples || usesConcreteFigures)`. -/
def positiveHeuristic (response : String) : Bool :=
  decide (30 < wordCount response) &&
    (hasSpecificExamples response || usesConcreteFigures response)

/-- The deterministic fallback `Feedback` built in the `catch` branch of
`getAIFeedback`. -/
def fallbackFeedback (response : String) : Feedback :=
  if positiveHeuristic response then
    { positive := true
      contentFeedback := "Your answer was detailed and relevant to the question. You provided good context and specific examples that highlight your experience."
      deliveryFeedback := "Your response was well-structured and concise while being comprehensive."
      improvementTips :=
        if 100 < wordCount response then
          some "Your answer was thorough, but consider being a bit more concise in future responses."
        else none
      followUpQuestion := some "Can you tell me more about the technologies you used in that project?" }
  else
    { positive := false
      contentFeedback := "Your answer could benefit from more specific examples and details related to your experience."
      deliveryFeedback :=
        if wordCount response < 20 then
          "Your response was quite brief. Consider expanding on your points to give the interviewer more insight."
        else
          "Try to structure your answer with a clear beginning, middle, and conclusion."
      improvementTips := some "Use the STAR method (Situation, Task, Action, Result) to structure your responses to behavioral questions."
      followUpQuestion := some "Can you give me an example of a time you faced a similar challenge?" }

/-- `getAIFeedback` of src/utils/interviewService.ts: up to 2 attempts
against the remote endpoint; on exhaustion it returns the deterministic
fallback feedback computed from the response text alone (the `question` and
`profile` arguments only feed the prompt of the remote call). -/
def getAIFeedback (question response : String) (profile : UserProfile)
    (outs : List (Option Feedback)) : Feedback :=
  match (retryAux outs 2).1 with
  | some fb => fb
  | none => fallbackFeedback response

/-- The profile of the scenario in spec §8: Dana, Software Engineering,
Backend Engineer, Intermediate (2-5 years). -/
def danaProfile : UserProfile :=
  { name := "Dana", field := "Software Engineering", role := "Backend Engineer",
    experienceLevel := "Intermediate (2-5 years)" }

/-! ### The conversation controller of src/components/InterviewRoom.tsx

The controller is event-driven React state.  We embed it as a record of the
state hooks the claims depend on, plus an event step function.  Each event is
the synchronous body of one handler (or of one promise continuation), exactly
as the browser's event loop runs them one at a time:

* `questionsLoaded qs` — the continuation of `generateQuestions` resolving,
  both in the initial `initInterview` effect and in
  `handleRestartInterview`'s `.then`;
* `greetingDone` — `handleSpeechComplete` in the `greeting` state;
* `submitResponse r fb` — `handleSubmitResponse` with answer `r`, where the
  awaited `getAIFeedback` resolved to `fb` (it never rejects);
* `next` — `handleNext`, reachable from the feedback panel's button;
* `transitionDone` — `handleSpeechComplete` in the `transition` state (dead
  code in the source: nothing ever sets `conversationState` to
  `transition`);
* `finalFeedbackDone` — `handleSpeechComplete` in the `finalFeedback` state;
* `completeSpeechDone` — `handleSpeechComplete` in the `complete` state;
* `finalPanelNext` — the final feedback panel's button
  (`setInterviewComplete(true)`);
* `restartBegin` — the synchronous part of `handleRestartInterview` (the
  regeneration it starts resolves later as a `questionsLoaded` event).

Guards mirror the conditions under which the source can run the handler at
all: the answer panel (textarea, microphone and submit button) is rendered
and enabled only while `conversationState === 'asking'` and questions are
loaded, the submit button additionally requires a non-blank answer, and the
restart button exists only on the `interviewComplete` screen. -/

/-- The `conversationState` union type of InterviewRoom.tsx. -/
inductive ConversationState where
  | greeting | asking | feedback | transition | finalFeedback | complete
deriving DecidableEq

/-- The state hooks of `InterviewRoom` that the claims depend on. -/
structure RoomState where
  questions : List InterviewQuestion
  currentQuestionIndex : Nat
  allResponses : List String
  conversationState : ConversationState
  currentFeedback : Option Feedback
  isGeneratingQuestions : Bool
  interviewComplete : Bool
deriving DecidableEq

/-- JavaScript truthiness of an optional string (used for
`if (feedback.followUpQuestion)`): `undefined` and the empty string are
falsy. -/
def optTruthy : Option String → Bool
  | none => false
  | some s => decide (s ≠ "")

/-- The follow-up question appended by `handleSubmitResponse`:
`{ id: questions.length + 1, question: feedback.followUpQuestion,
category: "Follow-up" }` (no topic). -/
def followUpOf (len : Nat) (t : String) : InterviewQuestion :=
  { id := len + 1, question := t, category := "Follow-up", topic := none }

/-- An event of the controller. -/
inductive RoomEvent where
  | questionsLoaded (qs : List InterviewQuestion)
  | greetingDone
  | submitResponse (response : String) (fb : Feedback)
  | next
  | transitionDone
  | finalFeedbackDone
  | completeSpeechDone
  | finalPanelNext
  | restartBegin

/-- One event step of the controller. -/
def applyEvent (s : RoomState) : RoomEvent → RoomState
  | .questionsLoaded qs =>
      if s.isGeneratingQuestions then
        { s with questions := qs,
                 allResponses := List.replicate qs.length "",
                 isGeneratingQuestions := false,
                 conversationState := .greeting }
      else s
  | .greetingDone =>
      if s.conversationState = .greeting ∧ s.isGeneratingQuestions = false then
        { s with conversationState := .asking }
      else s
  | .submitResponse r fb =>
      if s.conversationState = .asking ∧ s.isGeneratingQuestions = false ∧
          jsTrim r ≠ "" then
        let s1 : RoomState :=
          { s with allResponses := s.allResponses.set s.currentQuestionIndex r,
                   currentFeedback := some fb,
                   conversationState := .feedback }
        match fb.followUpQuestion with
        | some t =>
            if t ≠ "" then
              { s1 with
                  questions := s1.questions ++ [followUpOf s1.questions.length t],
                  allResponses := s1.allResponses ++ [""] }
            else s1
        | none => s1
      else s
  | .next =>
      if s.conversationState = .feedback ∧ s.currentFeedback.isSome then
        if s.currentQuestionIndex + 1 < s.questions.length then
          { s with currentFeedback := none,
                   currentQuestionIndex := s.currentQuestionIndex + 1,
                   conversationState := .asking }
        else
          { s with currentFeedback := none,
                   conversationState := .finalFeedback }
      else s
  | .transitionDone =>
      if s.conversationState = .transition then
        { s with currentQuestionIndex := s.currentQuestionIndex + 1,
                 conversationState := .asking }
      else s
  | .finalFeedbackDone =>
      if s.conversationState = .finalFeedback then
        { s with conversationState := .complete }
      else s
  | .completeSpeechDone =>
      if s.conversationState = .complete then
        { s with interviewComplete := true }
      else s
  | .finalPanelNext =>
      if s.conversationState = .finalFeedback then
        { s with interviewComplete := true }
      else s
  | .restartBegin =>
      if s.interviewComplete then
        { s with allResponses := [],
                 currentQuestionIndex := 0,
                 interviewComplete := false,
                 conversationState := .greeting,
                 currentFeedback := none,
                 isGeneratingQuestions := true }
      else s

/-- The state of `InterviewRoom` right after mount, before the initial
`generateQuestions` call resolves. -/
def initialState : RoomState :=
  { questions := [], currentQuestionIndex := 0, allResponses := [],
    conversationState := .greeting, currentFeedback := none,
    isGeneratingQuestions := true, interviewComplete := false }

/-- Run a sequence of events. -/
def runEvents (s : RoomState) (es : List RoomEvent) : RoomState :=
  es.foldl applyEvent s

/-- A loaded-questions event carries a non-empty list.  `generateQuestions`
returns a non-empty list whenever the remote call fails (the fallback table)
and whenever the remote model follows its prompt (8-10 questions); an empty
list would require the remote endpoint to answer with a successfully parsed
empty JSON array. -/
def goodEventB : RoomEvent → Bool
  | .questionsLoaded qs => decide (qs ≠ [])
  | _ => true

/-- The controller invariant: responses and questions stay aligned and the
index stays in range — except that while a (re)generation of questions is
pending, the response array has been reset ahead of the question array. -/
def roomInv (s : RoomState) : Prop :=
  (s.isGeneratingQuestions = false → s.allResponses.length = s.questions.length)
  ∧ (s.questions ≠ [] → s.currentQuestionIndex < s.questions.length)
  ∧ (s.isGeneratingQuestions = false → s.questions ≠ [])
  ∧ (s.isGeneratingQuestions = true → s.currentQuestionIndex = 0)
  ∧ s.conversationState ≠ .transition
  ∧ (s.isGeneratingQuestions = true → s.conversationState = .greeting)

/-! ### Question/feedback cycles (claim C3)

A cycle is one `handleSubmitResponse` (with the feedback the awaited
`getAIFeedback` resolved to) followed by one click of the feedback panel's
button (`handleNext`). -/

/-- A feedback without a follow-up question (as the remote model returns when
it chooses not to ask one; the deterministic fallback never does this). -/
def noFollowUpFeedback : Feedback :=
  { positive := true, contentFeedback := "Good answer.",
    deliveryFeedback := "Clear delivery.", improvementTips := none,
    followUpQuestion := none }

/-- One question/feedback cycle. -/
def doCycle (s : RoomState) (r : String) (fb : Feedback) : RoomState :=
  applyEvent (applyEvent s (.submitResponse r fb)) .next

/-- Run `n` cycles with answer `r`; the `i`-th cycle uses the `i`-th element
of the feedback schedule `fbs`, and cycles beyond the schedule use
`noFollowUpFeedback` (i.e. follow-up questions stop after finitely many
answers). -/
def runCyclesL (r : String) : RoomState → List Feedback → Nat → RoomState
  | s, _, 0 => s
  | s, fbs, n + 1 =>
      runCyclesL r (doCycle s r (fbs.headD noFollowUpFeedback)) fbs.tail n

/-- Whether a feedback grows the question list (truthy follow-up). -/
def fbGrows (fb : Feedback) : Bool :=
  optTruthy fb.followUpQuestion

/-- The number of cycles needed to leave the asking/feedback loop, starting
at question index `i` of `len` questions, when the upcoming cycles grow the
question list according to `flags` (and no growth after `flags` is
exhausted). -/
def cyclesToFinish (i len : Nat) : List Bool → Nat
  | [] => len - i
  | b :: rest =>
      let len2 := if b then len + 1 else len
      if i + 1 < len2 then 1 + cyclesToFinish (i + 1) len2 rest else 1

/-! ### The speech output adapter of src/utils/textToSpeech.ts

Module-level mutable state: `currentAudio` (the ElevenLabs
`HTMLAudioElement`, if one was started), the fallback synthesizer handle
`synth = window.speechSynthesis` (which may be unavailable) with its
`speaking` flag, and the module's own `isSpeakingState` flag. -/

/-- The observable state of an `HTMLAudioElement` held in `currentAudio`. -/
structure AudioHandle where
  paused : Bool
  currentTime : Nat
deriving DecidableEq

/-- The module-level state of the speech output adapter. -/
structure SpeechOutputState where
  currentAudio : Option AudioHandle
  synthAvailable : Bool
  synthSpeaking : Bool
  isSpeakingState : Bool
deriving DecidableEq

/-- `stop()` of textToSpeech.ts: pause and drop the ElevenLabs audio if one
is held, cancel the synthesizer if available, clear the speaking flag. -/
def stop (s : SpeechOutputState) : SpeechOutputState :=
  let s1 :=
    match s.currentAudio with
    | some _ => { s with currentAudio := none }
    | none => s
  let s2 := if s1.synthAvailable then { s1 with synthSpeaking := false } else s1
  { s2 with isSpeakingState := false }

/-- `isSpeaking()` of textToSpeech.ts:
`isSpeakingState || (synth ? synth.speaking : false)`. -/
def isSpeaking (s : SpeechOutputState) : Bool :=
  s.isSpeakingState || (s.synthAvailable && s.synthSpeaking)

/-! ### The voice-credential state of textToSpeech.ts / ApiKeyModal.tsx -/

/-- The module variable `elevenLabsApiKey` and the browser-local storage slot
`localStorage['elevenLabsApiKey']`; either may be absent. -/
structure TtsKeyState where
  elevenLabsApiKey : Option String
  storedApiKey : Option String
deriving DecidableEq

/-- `setApiKey` of textToSpeech.ts: set the module variable and persist to
local storage. -/
def setApiKey (s : TtsKeyState) (k : String) : TtsKeyState :=
  { elevenLabsApiKey := some k, storedApiKey := some k }

/-- `hasApiKey` of textToSpeech.ts: load the module variable from local
storage when it is unset, then report whether it is (truthily) set.  The
function both returns a boolean and updates the module state. -/
def hasApiKeyRun (s : TtsKeyState) : Bool × TtsKeyState :=
  let s1 :=
    if optTruthy s.elevenLabsApiKey then s
    else { s with elevenLabsApiKey := s.storedApiKey }
  (optTruthy s1.elevenLabsApiKey, s1)

/-- The hardcoded ElevenLabs key installed by ApiKeyModal.tsx on mount. -/
def builtinElevenLabsApiKey : String :=
  "sk_382ca005822432eb0ae9347fa04ea79c341bc24f4d21c418"

/-- The mount effect of `ApiKeyModal`: if `hasApiKey()` is false, store the
hardcoded built-in key via `setApiKey`.  (The repository carries two variants
of this component, differing only in the literal key; both run exactly this
effect.) -/
def apiKeyModalMount (s : TtsKeyState) : TtsKeyState :=
  let p := hasApiKeyRun s
  if p.1 then p.2 else setApiKey p.2 builtinElevenLabsApiKey

/-! ### JSON extraction from the remote response text (claim C6)

`generateQuestions` runs `responseText.match(/\[[\s\S]*\]/)` and
`getAIFeedback` runs `responseText.match(/\{[\s\S]*\}/)`.  Both regexes are
greedy: the leftmost match starts at the first opening bracket and, because
`[\s\S]*` is greedy, extends to the last closing bracket of the whole text.
`regexSpanMatch` is that semantics over a character list, generic in the
bracket pair. -/

/-- Index of the first occurrence of `c`. -/
def firstIdxOf (c : Char) : List Char → Option Nat
  | [] => none
  | a :: as => if a = c then some 0 else (firstIdxOf c as).map (· + 1)

/-- Index of the last occurrence of `c`. -/
def lastIdxOf (c : Char) : List Char → Option Nat
  | [] => none
  | a :: as =>
      match lastIdxOf c as with
      | some i => some (i + 1)
      | none => if a = c then some 0 else none

/-- The inclusive slice `l[i..j]`. -/
def sliceIncl (l : List Char) (i j : Nat) : List Char :=
  (l.drop i).take (j + 1 - i)

/-- The single match of the greedy regex `/o[\s\S]*c/` (for an opening
character `o` and closing character `c`): the span from the first `o` to the
last `c`, provided the last `c` lies after the first `o`; otherwise the
regex does not match. -/
def regexSpanMatch (oc cc : Char) (l : List Char) : Option (List Char) :=
  match firstIdxOf oc l, lastIdxOf cc l with
  | some i, some j => if i < j then some (sliceIncl l i j) else none
  | _, _ => none

/-- Modelled from the spec: length of the shortest prefix of the remaining
text that closes a bracket currently open at depth `d` (bracket-matching,
as spec §6 describes the extraction). -/
def balancedPrefixLen (oc cc : Char) : List Char → Nat → Option Nat
  | [], _ => none
  | c :: rest, d =>
      if c = cc then
        if d = 1 then some 1
        else (balancedPrefixLen oc cc rest (d - 1)).map (· + 1)
      else if c = oc then (balancedPrefixLen oc cc rest (d + 1)).map (· + 1)
      else (balancedPrefixLen oc cc rest d).map (· + 1)

/-- Modelled from the spec: "extracts the first well-formed array [object]
literal from the response text" — the bracket-balanced span opened by the
first opening bracket. -/
def specFirstBalancedLiteral (oc cc : Char) : List Char → Option (List Char)
  | [] => none
  | c :: rest =>
      if c = oc then
        (balancedPrefixLen oc cc rest 1).map (fun n => c :: rest.take n)
      else specFirstBalancedLiteral oc cc rest

/-- The opening curly brace character (code point 123), the opening bracket
of the feedback regex. -/
def lbraceChar : Char := Char.ofNat 123

/-- The closing curly brace character (code point 125). -/
def rbraceChar : Char := Char.ofNat 125

/-- An idle speech output adapter state (no audio handle, synthesizer
available and silent). -/
def idleSpeechState : SpeechOutputState :=
  { currentAudio := none, synthAvailable := true, synthSpeaking := false,
    isSpeakingState := false }

/-- A browser session with no module key and empty local storage. -/
def emptyKeyState : TtsKeyState :=
  { elevenLabsApiKey := none, storedApiKey := none }

/-- Two concrete questions standing for a parsed remote response (used in
concrete controller traces). -/
def qAlpha : InterviewQuestion :=
  { id := 1, question := "Tell me about yourself.", category := "Introduction",
    topic := some "Background" }

/-- Second concrete question. -/
def qBeta : InterviewQuestion :=
  { id := 2, question := "Why this role?", category := "Motivation",
    topic := some "Fit" }

/-- The question list after `handleSubmitResponse` with feedback `fb`: grown
by the follow-up question exactly when the follow-up is JS-truthy. -/
def newQs (s : RoomState) (fb : Feedback) : List InterviewQuestion :=
  match fb.followUpQuestion with
  | some t =>
      if t ≠ "" then s.questions ++ [followUpOf s.questions.length t]
      else s.questions
  | none => s.questions

/-- The controller state right after the initial questions have loaded and
the greeting has been spoken: asking the first question. -/
def loadedState (qs : List InterviewQuestion) : RoomState :=
  { questions := qs, currentQuestionIndex := 0,
    allResponses := List.replicate qs.length "",
    conversationState := .asking, currentFeedback := none,
    isGeneratingQuestions := false, interviewComplete := false }

/-- The response list after `handleSubmitResponse`: the answer stored at the
current index, plus an empty slot exactly when a follow-up is appended. -/
def newResp (s : RoomState) (r : String) (fb : Feedback) : List String :=
  match fb.followUpQuestion with
  | some t =>
      if t ≠ "" then (s.allResponses.set s.currentQuestionIndex r) ++ [""]
      else s.allResponses.set s.currentQuestionIndex r
  | none => s.allResponses.set s.currentQuestionIndex r

/-- A full concrete interview trace ending in a restart: load two questions,
finish the greeting, answer both (feedback without follow-ups), let the
final feedback be spoken, reach the completion screen, and click "Start a
New Interview".  The last event is the synchronous part of
`handleRestartInterview`; the regeneration it starts has not resolved yet. -/
def restartTrace : List RoomEvent :=
  [ RoomEvent.questionsLoaded [qAlpha, qBeta], RoomEvent.greetingDone,
    RoomEvent.submitResponse "My answer" noFollowUpFeedback, RoomEvent.next,
    RoomEvent.submitResponse "My answer" noFollowUpFeedback, RoomEvent.next,
    RoomEvent.finalFeedbackDone, RoomEvent.completeSpeechDone,
    RoomEvent.restartBegin ]

/-- A short concrete trace: load two questions, finish the greeting, answer
the first question. -/
def shortTrace : List RoomEvent :=
  [ RoomEvent.questionsLoaded [qAlpha, qBeta], RoomEvent.greetingDone,
    RoomEvent.submitResponse "My answer" noFollowUpFeedback ]

/-! ## Helper lemmas -/

theorem headD_none_of_all_isNone {α : Type} {outs : List (Option α)}
    (h : outs.all Option.isNone = true) : outs.headD none = none := by
  match outs with
  | [] => rfl
  | none :: t => rfl
  | some v :: t => simp [List.all_cons] at h

theorem tail_all_of_all_isNone {α : Type} {outs : List (Option α)}
    (h : outs.all Option.isNone = true) : outs.tail.all Option.isNone = true := by
  match outs with
  | [] => exact h
  | a :: t =>
      simp only [List.all_cons, Bool.and_eq_true] at h
      exact h.2

theorem retryAux_all_none {α : Type} :
    ∀ (n : Nat) (outs : List (Option α)), outs.all Option.isNone = true →
      retryAux outs n = (none, n, List.replicate (n - 1) 1000) := by
  intro n
  induction n with
  | zero => intro outs _; rfl
  | succ r ih =>
      intro outs h
      rw [show retryAux outs (r + 1) =
            (match outs.headD none with
             | some v => (some v, 1, [])
             | none =>
               if r = 0 then (none, 1, [])
               else
                 let t := retryAux outs.tail r
                 (t.1, t.2.1 + 1, 1000 :: t.2.2)) from rfl]
      rw [headD_none_of_all_isNone h]
      by_cases hr : r = 0
      · subst hr; simp
      · simp only [if_neg hr]
        rw [ih _ (tail_all_of_all_isNone h)]
        cases r with
        | zero => exact absurd rfl hr
        | succ k => simp [List.replicate]

theorem generateQuestions_all_none (p : UserProfile)
    (outs : List (Option (List InterviewQuestion)))
    (h : outs.all Option.isNone = true) :
    generateQuestions p outs = fallbackQuestions p := by
  unfold generateQuestions
  rw [retryAux_all_none 3 outs h]

theorem getAIFeedback_all_none (q r : String) (p : UserProfile)
    (outs : List (Option Feedback)) (h : outs.all Option.isNone = true) :
    getAIFeedback q r p outs = fallbackFeedback r := by
  unfold getAIFeedback
  rw [retryAux_all_none 2 outs h]

theorem fallbackQuestions_ne_nil (p : UserProfile) : fallbackQuestions p ≠ [] := by
  have hlen : 0 < (fallbackQuestions p).length := by
    unfold fallbackQuestions
    repeat' split
    all_goals simp
  exact List.ne_nil_of_length_pos hlen

/-! ## Claim theorems -/

/-- Claim C1: for every valid profile, `generateQuestions` never throws and
always resolves to a non-empty sequence; when every remote attempt fails
(network error, timeout, or malformed JSON — all modelled as a `none`
outcome), it returns the deterministic profile-keyed fallback table, which
is non-empty.  (`generateQuestions` is a total function of the profile and
the attempt outcomes: every error path of the source ends in the fallback
`catch` branch, never in a rejection.) -/
theorem C1_generateQuestions_total_fallback (p : UserProfile)
    (outs : List (Option (List InterviewQuestion)))
    (h : outs.all Option.isNone = true) :
    generateQuestions p outs = fallbackQuestions p
    ∧ generateQuestions p outs ≠ [] := by
  have e := generateQuestions_all_none p outs h
  exact ⟨e, e ▸ fallbackQuestions_ne_nil p⟩

/-- Witness for C1 at the Dana profile with three failing attempts. -/
theorem C1_generateQuestions_total_fallback_witness :
    ([none, none, none] : List (Option (List InterviewQuestion))).all
        Option.isNone = true
    ∧ (generateQuestions danaProfile [none, none, none]
          = fallbackQuestions danaProfile
        ∧ generateQuestions danaProfile [none, none, none] ≠ []) :=
  ⟨by decide,
    C1_generateQuestions_total_fallback danaProfile [none, none, none] (by decide)⟩

/-- Counterexample to claim C4: for the Dana profile with the remote API
unreachable on every attempt, `generateQuestions` does NOT return 6
questions with first category "Experience" — it returns 10 questions (3
introduction + 7 Software-Engineering questions, and no experience-tier
extra because "Intermediate (2-5 years)" contains neither "Beginner" nor
"Senior"), and the first question's category is "Introduction". -/
theorem C4_dana_scenario_counterexample :
    (generateQuestions danaProfile [none, none, none]).length = 10
    ∧ ((generateQuestions danaProfile [none, none, none]).head?.map
        InterviewQuestion.category) = some "Introduction"
    ∧ ¬((generateQuestions danaProfile [none, none, none]).length = 6
        ∧ ((generateQuestions danaProfile [none, none, none]).head?.map
            InterviewQuestion.category) = some "Experience") := by
  decide

/-- Claim C4 as amended: for the Dana profile with every remote attempt
failing, `generateQuestions` returns 10 questions — the 3 generic
introduction questions followed by the 7 Software-Engineering questions,
with no experience-tier extra for "Intermediate (2-5 years)" — and the
first "Experience"-category question is the 4th. -/
theorem C4_dana_scenario_amended :
    (generateQuestions danaProfile [none, none, none]).map
        InterviewQuestion.category =
      ["Introduction", "Introduction", "Introduction", "Experience",
       "Professional Development", "Teamwork", "Technical Skills",
       "Technical Skills", "Career Goals", "Problem Solving"] := by
  decide

/-- Claim C5: when every remote attempt fails, `getFeedback` returns a
feedback whose `positive` flag is true iff the answer's word count exceeds
30 AND (the answer mentions "example"/"instance"/"situation" OR matches the
`\d+%|\d+ years|\d+ projects` figure pattern); and the flag is a pure
function of the answer text — identical across repeated calls, whatever the
question, profile, and (failing) attempt outcomes. -/
theorem C5_fallback_feedback_heuristic (q1 q2 r : String) (p1 p2 : UserProfile)
    (outs1 outs2 : List (Option Feedback))
    (h1 : outs1.all Option.isNone = true) (h2 : outs2.all Option.isNone = true) :
    ((getAIFeedback q1 r p1 outs1).positive = true ↔
      (30 < wordCount r ∧
        (hasSpecificExamples r = true ∨ usesConcreteFigures r = true)))
    ∧ (getAIFeedback q1 r p1 outs1).positive
        = (getAIFeedback q2 r p2 outs2).positive := by
  have e1 := getAIFeedback_all_none q1 r p1 outs1 h1
  have e2 := getAIFeedback_all_none q2 r p2 outs2 h2
  refine ⟨?_, by rw [e1, e2]⟩
  rw [e1]
  unfold fallbackFeedback
  by_cases hp : positiveHeuristic r = true
  · rw [if_pos hp]
    simp only [positiveHeuristic, Bool.and_eq_true, Bool.or_eq_true,
      decide_eq_true_eq] at hp
    exact ⟨fun _ => hp, fun _ => rfl⟩
  · rw [if_neg hp]
    simp only [positiveHeuristic, Bool.and_eq_true, Bool.or_eq_true,
      decide_eq_true_eq] at hp
    exact ⟨fun hfb => absurd hfb Bool.false_ne_true, fun hc => absurd hc hp⟩

/-- Witness for C5: a long answer containing "example" (positive) versus the
same answer through a second failing attempt list. -/
theorem C5_fallback_feedback_heuristic_witness :
    ([none, none] : List (Option Feedback)).all Option.isNone = true
    ∧ ([] : List (Option Feedback)).all Option.isNone = true
    ∧ (((getAIFeedback "Q" "In one project for example I improved performance by a lot because we profiled the system carefully and found that the database was the bottleneck so we added caching and the latency dropped for all users across every region we served worldwide" danaProfile [none, none]).positive = true ↔
        (30 < wordCount "In one project for example I improved performance by a lot because we profiled the system carefully and found that the database was the bottleneck so we added caching and the latency dropped for all users across every region we served worldwide" ∧
          (hasSpecificExamples "In one project for example I improved performance by a lot because we profiled the system carefully and found that the database was the bottleneck so we added caching and the latency dropped for all users across every region we served worldwide" = true ∨
            usesConcreteFigures "In one project for example I improved performance by a lot because we profiled the system carefully and found that the database was the bottleneck so we added caching and the latency dropped for all users across every region we served worldwide" = true)))
      ∧ (getAIFeedback "Q" "In one project for example I improved performance by a lot because we profiled the system carefully and found that the database was the bottleneck so we added caching and the latency dropped for all users across every region we served worldwide" danaProfile [none, none]).positive
          = (getAIFeedback "Other question" "In one project for example I improved performance by a lot because we profiled the system carefully and found that the database was the bottleneck so we added caching and the latency dropped for all users across every region we served worldwide"
              { name := "B", field := "Marketing", role := "Analyst",
                experienceLevel := "Senior (5+ years)" } []).positive) :=
  ⟨by decide, by decide,
    C5_fallback_feedback_heuristic "Q" "Other question" _ danaProfile _ [none, none] []
      (by decide) (by decide)⟩

/-- Claim C7: on persistent failure `generateQuestions` makes exactly 3
attempts with a 1000 ms sleep between consecutive attempts (2 sleeps) before
falling back, `getAIFeedback` makes exactly 2 attempts with one 1000 ms
sleep before falling back, and a first-attempt success stops the loop after
1 attempt and no sleep. -/
theorem C7_retry_counts_and_backoff
    (outsQ : List (Option (List InterviewQuestion)))
    (outsF outsS : List (Option Feedback)) (p : UserProfile) (q r : String)
    (v : Feedback)
    (hQ : outsQ.all Option.isNone = true) (hF : outsF.all Option.isNone = true)
    (hS : outsS.headD none = some v) :
    (retryAux outsQ 3).2 = (3, [1000, 1000])
    ∧ (retryAux outsF 2).2 = (2, [1000])
    ∧ generateQuestions p outsQ = fallbackQuestions p
    ∧ getAIFeedback q r p outsF = fallbackFeedback r
    ∧ retryAux outsS 2 = (some v, 1, []) := by
  refine ⟨?_, ?_, generateQuestions_all_none p outsQ hQ,
    getAIFeedback_all_none q r p outsF hF, ?_⟩
  · rw [retryAux_all_none 3 outsQ hQ]; rfl
  · rw [retryAux_all_none 2 outsF hF]; rfl
  · cases outsS with
    | nil => simp at hS
    | cons a t =>
        have ha : a = some v := by simpa using hS
        subst ha
        rfl

/-- Witness for C7 with all-failing lists and a first-attempt success. -/
theorem C7_retry_counts_and_backoff_witness :
    ([none, none, none] : List (Option (List InterviewQuestion))).all
        Option.isNone = true
    ∧ ([none, none] : List (Option Feedback)).all Option.isNone = true
    ∧ ([some noFollowUpFeedback] : List (Option Feedback)).headD none
        = some noFollowUpFeedback
    ∧ ((retryAux ([none, none, none] : List (Option (List InterviewQuestion))) 3).2
          = (3, [1000, 1000])
      ∧ (retryAux ([none, none] : List (Option Feedback)) 2).2 = (2, [1000])
      ∧ generateQuestions danaProfile [none, none, none]
          = fallbackQuestions danaProfile
      ∧ getAIFeedback "Q" "A" danaProfile [none, none] = fallbackFeedback "A"
      ∧ retryAux [some noFollowUpFeedback] 2 = (some noFollowUpFeedback, 1, [])) :=
  ⟨by decide, by decide, by decide,
    C7_retry_counts_and_backoff [none, none, none] [none, none]
      [some noFollowUpFeedback] danaProfile "Q" "A" noFollowUpFeedback
      (by decide) (by decide) (by decide)⟩

/-- Claim C8: `stop()` on the speech output adapter is idempotent — stopping
twice leaves exactly the state stopping once leaves, `isSpeaking()` is false
after any `stop()`, and a `stop()` when nothing is playing (no audio handle
held, not speaking) is a no-op on the adapter state — for every backend
configuration. -/
theorem C8_stop_idempotent (s : SpeechOutputState) :
    stop (stop s) = stop s
    ∧ isSpeaking (stop s) = false
    ∧ (isSpeaking s = false → s.currentAudio = none → stop s = s) := by
  obtain ⟨audio, avail, speak, flag⟩ := s
  refine ⟨?_, ?_, ?_⟩
  · cases audio <;> cases avail <;> rfl
  · cases audio <;> cases avail <;> simp [stop, isSpeaking]
  · intro hsp haudio
    cases audio with
    | some a => exact absurd haudio (by simp)
    | none =>
        cases avail with
        | false => simp [isSpeaking] at hsp; simp [stop, hsp]
        | true =>
            simp [isSpeaking] at hsp
            simp [stop, hsp.1, hsp.2]

/-- Witness for C8 at a concrete idle adapter state with the synthesizer
backend available. -/
theorem C8_stop_idempotent_witness :
    isSpeaking idleSpeechState = false
    ∧ idleSpeechState.currentAudio = none
    ∧ stop idleSpeechState = idleSpeechState :=
  ⟨by decide, by decide,
    (C8_stop_idempotent idleSpeechState).2.2 (by decide) (by decide)⟩

/-- Claim C10: on mount, when no voice credential is stored (`hasApiKey()`
false), `ApiKeyModal` installs the hardcoded built-in ElevenLabs key via
`setApiKey` (module variable and browser-local storage), after which
`hasApiKey()` returns true — so `speak`'s no-credential branch (the fallback
to the built-in synthesizer taken when `hasApiKey()` is false) can never be
taken for lack of a key after the modal has mounted. -/
theorem C10_modal_installs_builtin_key (s : TtsKeyState)
    (h : (hasApiKeyRun s).1 = false) :
    (hasApiKeyRun (apiKeyModalMount s)).1 = true
    ∧ (apiKeyModalMount s).elevenLabsApiKey = some builtinElevenLabsApiKey
    ∧ (apiKeyModalMount s).storedApiKey = some builtinElevenLabsApiKey := by
  have hmount : apiKeyModalMount s
      = setApiKey (hasApiKeyRun s).2 builtinElevenLabsApiKey := by
    simp [apiKeyModalMount, h]
  refine ⟨?_, ?_, ?_⟩ <;> rw [hmount] <;> rfl

theorem roomInv_step (s : RoomState) (e : RoomEvent)
    (hs : roomInv s) (he : goodEventB e = true) :
    roomInv (applyEvent s e) := by
  obtain ⟨h1, h2, h3, h4, h5, h6⟩ := hs
  cases e with
  | questionsLoaded qs =>
      simp only [goodEventB, decide_eq_true_eq] at he
      simp only [applyEvent]
      split
      · rename_i hg
        refine ⟨?_, ?_, ?_, ?_, ?_, ?_⟩
        · intro _; simp
        · intro _
          show s.currentQuestionIndex < qs.length
          rw [h4 hg]
          exact List.length_pos.mpr he
        · intro _; exact he
        · intro hc; simp at hc
        · show ConversationState.greeting ≠ ConversationState.transition
          decide
        · intro hc; simp at hc
      · exact ⟨h1, h2, h3, h4, h5, h6⟩
  | greetingDone =>
      simp only [applyEvent]
      split
      · rename_i hg
        refine ⟨fun hx => h1 hx, h2, fun hx => h3 hx, fun hx => h4 hx, ?_, ?_⟩
        · show ConversationState.asking ≠ ConversationState.transition
          decide
        · intro hc
          exact absurd (show s.isGeneratingQuestions = true from hc)
            (by simp [hg.2])
      · exact ⟨h1, h2, h3, h4, h5, h6⟩
  | submitResponse r fb =>
      simp only [applyEvent]
      split
      · rename_i hg
        obtain ⟨hask, hgen, htrim⟩ := hg
        cases hfb : fb.followUpQuestion with
        | none =>
            simp only [hfb]
            refine ⟨?_, ?_, ?_, ?_, ?_, ?_⟩
            · intro _
              show (s.allResponses.set s.currentQuestionIndex r).length
                  = s.questions.length
              rw [List.length_set]
              exact h1 hgen
            · intro hq; exact h2 hq
            · intro _; exact h3 hgen
            · intro hc
              exact absurd (show s.isGeneratingQuestions = true from hc)
                (by simp [hgen])
            · show ConversationState.feedback ≠ ConversationState.transition
              decide
            · intro hc
              exact absurd (show s.isGeneratingQuestions = true from hc)
                (by simp [hgen])
        | some t =>
            simp only [hfb]
            split
            · refine ⟨?_, ?_, ?_, ?_, ?_, ?_⟩
              · intro _
                show ((s.allResponses.set s.currentQuestionIndex r) ++ [""]).length
                    = (s.questions ++ [followUpOf s.questions.length t]).length
                rw [List.length_append, List.length_append, List.length_set,
                  h1 hgen]
                rfl
              · intro _
                show s.currentQuestionIndex
                    < (s.questions ++ [followUpOf s.questions.length t]).length
                rw [List.length_append]
                have := h2 (h3 hgen)
                omega
              · intro _
                show s.questions ++ [followUpOf s.questions.length t] ≠ []
                simp
              · intro hc
                exact absurd (show s.isGeneratingQuestions = true from hc)
                  (by simp [hgen])
              · show ConversationState.feedback ≠ ConversationState.transition
                decide
              · intro hc
                exact absurd (show s.isGeneratingQuestions = true from hc)
                  (by simp [hgen])
            · refine ⟨?_, ?_, ?_, ?_, ?_, ?_⟩
              · intro _
                show (s.allResponses.set s.currentQuestionIndex r).length
                    = s.questions.length
                rw [List.length_set]
                exact h1 hgen
              · intro hq; exact h2 hq
              · intro _; exact h3 hgen
              · intro hc
                exact absurd (show s.isGeneratingQuestions = true from hc)
                  (by simp [hgen])
              · show ConversationState.feedback ≠ ConversationState.transition
                decide
              · intro hc
                exact absurd (show s.isGeneratingQuestions = true from hc)
                  (by simp [hgen])
      · exact ⟨h1, h2, h3, h4, h5, h6⟩
  | next =>
      simp only [applyEvent]
      split
      · rename_i hg
        have hgen : s.isGeneratingQuestions = false := by
          cases hb : s.isGeneratingQuestions with
          | false => rfl
          | true => exact absurd hg.1 (by rw [h6 hb]; decide)
        split
        · rename_i hlt
          refine ⟨?_, ?_, ?_, ?_, ?_, ?_⟩
          · intro _; exact h1 hgen
          · intro _; exact hlt
          · intro _; exact h3 hgen
          · intro hc
            exact absurd (show s.isGeneratingQuestions = true from hc)
              (by simp [hgen])
          · show ConversationState.asking ≠ ConversationState.transition
            decide
          · intro hc
            exact absurd (show s.isGeneratingQuestions = true from hc)
              (by simp [hgen])
        · refine ⟨?_, ?_, ?_, ?_, ?_, ?_⟩
          · intro _; exact h1 hgen
          · intro hq; exact h2 hq
          · intro _; exact h3 hgen
          · intro hc
            exact absurd (show s.isGeneratingQuestions = true from hc)
              (by simp [hgen])
          · show ConversationState.finalFeedback ≠ ConversationState.transition
            decide
          · intro hc
            exact absurd (show s.isGeneratingQuestions = true from hc)
              (by simp [hgen])
      · exact ⟨h1, h2, h3, h4, h5, h6⟩
  | transitionDone =>
      simp only [applyEvent]
      split
      · rename_i hg; exact absurd hg h5
      · exact ⟨h1, h2, h3, h4, h5, h6⟩
  | finalFeedbackDone =>
      simp only [applyEvent]
      split
      · rename_i hg
        refine ⟨fun hx => h1 hx, h2, fun hx => h3 hx, fun hx => h4 hx, ?_, ?_⟩
        · show ConversationState.complete ≠ ConversationState.transition
          decide
        · intro hc
          exact absurd hg (by rw [h6 hc]; decide)
      · exact ⟨h1, h2, h3, h4, h5, h6⟩
  | completeSpeechDone =>
      simp only [applyEvent]
      split
      · exact ⟨h1, h2, h3, h4, h5, h6⟩
      · exact ⟨h1, h2, h3, h4, h5, h6⟩
  | finalPanelNext =>
      simp only [applyEvent]
      split
      · exact ⟨h1, h2, h3, h4, h5, h6⟩
      · exact ⟨h1, h2, h3, h4, h5, h6⟩
  | restartBegin =>
      simp only [applyEvent]
      split
      · refine ⟨?_, ?_, ?_, ?_, ?_, ?_⟩
        · intro hc; simp at hc
        · intro hq
          show 0 < s.questions.length
          exact List.length_pos.mpr hq
        · intro hc; simp at hc
        · intro _; rfl
        · show ConversationState.greeting ≠ ConversationState.transition
          decide
        · intro _; rfl
      · exact ⟨h1, h2, h3, h4, h5, h6⟩

theorem roomInv_initial : roomInv initialState := by
  refine ⟨?_, ?_, ?_, ?_, ?_, ?_⟩
  · intro h; simp [initialState] at h
  · intro h; simp [initialState] at h
  · intro h; simp [initialState] at h
  · intro _; rfl
  · decide
  · intro _; rfl

theorem roomInv_run (es : List RoomEvent) :
    ∀ (s : RoomState), roomInv s → es.all goodEventB = true →
      roomInv (runEvents s es) := by
  induction es with
  | nil => intro s hs _; exact hs
  | cons e t ih =>
      intro s hs hall
      simp only [List.all_cons, Bool.and_eq_true] at hall
      exact ih (applyEvent s e) (roomInv_step s e hs hall.1) hall.2

/-- Counterexample to claim C2: the invariant `len(Responses) ==
len(Questions)` does NOT survive the restart operation.  In the concrete
reachable trace `restartTrace` (a full two-question interview followed by
clicking restart), the synchronous part of `handleRestartInterview` has
emptied `allResponses` while `questions` still holds the two questions of
the finished interview, so the lengths differ (0 vs 2) until the restarted
`generateQuestions` resolves. -/
theorem C2_invariant_counterexample :
    (runEvents initialState restartTrace).allResponses.length
      ≠ (runEvents initialState restartTrace).questions.length
    ∧ (runEvents initialState restartTrace).allResponses.length = 0
    ∧ (runEvents initialState restartTrace).questions.length = 2 := by
  decide

/-- Claim C2 as amended: in every reachable controller state in which
question (re)generation is not pending (`isGeneratingQuestions = false`),
`len(Responses) = len(Questions)` — including after the append of a
follow-up question with its empty response slot and after a restart
completes; during the window a restart opens (between the synchronous
reset and the arrival of the regenerated questions) the response array is
empty while the question array keeps its previous contents.  And, with the
scope of the original claim, `currentQuestionIndex < len(Questions)` holds
in every non-pending state whose conversation state is not Complete —
under the explicitly stated hypothesis that every loaded question list is
non-empty, which C1 guarantees whenever the remote call fails and the
prompt (8-10 questions) otherwise; a remote response successfully parsing
to an empty JSON array would load zero questions and void the bound. -/
theorem C2_invariant_amended (es : List RoomEvent)
    (hgood : es.all goodEventB = true) :
    ((runEvents initialState es).isGeneratingQuestions = false →
      (runEvents initialState es).allResponses.length
        = (runEvents initialState es).questions.length)
    ∧ ((runEvents initialState es).conversationState ≠ ConversationState.complete →
        (runEvents initialState es).isGeneratingQuestions = false →
        (runEvents initialState es).currentQuestionIndex
          < (runEvents initialState es).questions.length) := by
  have h := roomInv_run es initialState roomInv_initial hgood
  obtain ⟨h1, h2, h3, _, _, _⟩ := h
  exact ⟨h1, fun _ hgen => h2 (h3 hgen)⟩

/-- Witness for C2 (amended) on the concrete trace `shortTrace`. -/
theorem C2_invariant_amended_witness :
    shortTrace.all goodEventB = true
    ∧ (((runEvents initialState shortTrace).isGeneratingQuestions = false →
        (runEvents initialState shortTrace).allResponses.length
          = (runEvents initialState shortTrace).questions.length)
      ∧ ((runEvents initialState shortTrace).conversationState
            ≠ ConversationState.complete →
          (runEvents initialState shortTrace).isGeneratingQuestions = false →
          (runEvents initialState shortTrace).currentQuestionIndex
            < (runEvents initialState shortTrace).questions.length)) :=
  ⟨by decide, C2_invariant_amended shortTrace (by decide)⟩

/-- Claim C9: whenever `getAIFeedback` falls back after all remote attempts
fail, the returned feedback carries a (JS-truthy, i.e. non-empty) follow-up
question — in both the positive and the negative branch, for every answer
text — so submitting any non-blank answer in the asking state with such a
feedback appends exactly one question to the sequence. -/
theorem C9_fallback_feedback_always_grows (q r : String) (p : UserProfile)
    (outs : List (Option Feedback)) (hfail : outs.all Option.isNone = true)
    (s : RoomState) (hask : s.conversationState = ConversationState.asking)
    (hgen : s.isGeneratingQuestions = false) (htrim : jsTrim r ≠ "") :
    optTruthy (getAIFeedback q r p outs).followUpQuestion = true
    ∧ (applyEvent s
        (RoomEvent.submitResponse r (getAIFeedback q r p outs))).questions.length
        = s.questions.length + 1 := by
  have e := getAIFeedback_all_none q r p outs hfail
  rw [e]
  have hfu : ∃ t, (fallbackFeedback r).followUpQuestion = some t ∧ t ≠ "" := by
    unfold fallbackFeedback
    by_cases hp : positiveHeuristic r = true
    · rw [if_pos hp]; exact ⟨_, rfl, by decide⟩
    · rw [if_neg hp]; exact ⟨_, rfl, by decide⟩
  obtain ⟨t, hT, hTne⟩ := hfu
  constructor
  · simp only [hT, optTruthy, decide_eq_true_eq]
    exact hTne
  · simp only [applyEvent]
    rw [if_pos ⟨hask, hgen, htrim⟩]
    simp only [hT]
    rw [if_pos hTne]
    show (s.questions ++ [followUpOf s.questions.length t]).length
        = s.questions.length + 1
    rw [List.length_append]
    rfl

theorem newQs_length (s : RoomState) (fb : Feedback) :
    (newQs s fb).length = s.questions.length + (if fbGrows fb then 1 else 0) := by
  cases hfb : fb.followUpQuestion with
  | none => simp [newQs, hfb, fbGrows, optTruthy]
  | some t =>
      by_cases ht : t ≠ ""
      · simp [newQs, hfb, fbGrows, optTruthy, ht]
      · simp [newQs, hfb, fbGrows, optTruthy, ht]

theorem submit_eq (s : RoomState) (r : String) (fb : Feedback)
    (hask : s.conversationState = ConversationState.asking)
    (hgen : s.isGeneratingQuestions = false)
    (htrim : jsTrim r ≠ "") :
    applyEvent s (RoomEvent.submitResponse r fb) =
      { questions := newQs s fb,
        currentQuestionIndex := s.currentQuestionIndex,
        allResponses := newResp s r fb,
        conversationState := ConversationState.feedback,
        currentFeedback := some fb,
        isGeneratingQuestions := s.isGeneratingQuestions,
        interviewComplete := s.interviewComplete } := by
  simp only [applyEvent]
  rw [if_pos ⟨hask, hgen, htrim⟩]
  cases hfb : fb.followUpQuestion with
  | none => simp only [newQs, newResp, hfb]
  | some t =>
      by_cases ht : t ≠ ""
      · simp only [newQs, newResp, hfb]
        simp [ht]
      · have ht2 : t = "" := not_not.mp ht
        subst ht2
        simp [newQs, newResp, hfb]

theorem next_eq_adv (s : RoomState)
    (hfb : s.conversationState = ConversationState.feedback)
    (hsome : s.currentFeedback.isSome = true)
    (hlt : s.currentQuestionIndex + 1 < s.questions.length) :
    applyEvent s RoomEvent.next =
      { s with currentFeedback := none,
               currentQuestionIndex := s.currentQuestionIndex + 1,
               conversationState := ConversationState.asking } := by
  simp only [applyEvent]
  rw [if_pos ⟨hfb, hsome⟩, if_pos hlt]

theorem next_eq_finish (s : RoomState)
    (hfb : s.conversationState = ConversationState.feedback)
    (hsome : s.currentFeedback.isSome = true)
    (hge : ¬(s.currentQuestionIndex + 1 < s.questions.length)) :
    applyEvent s RoomEvent.next =
      { s with currentFeedback := none,
               conversationState := ConversationState.finalFeedback } := by
  simp only [applyEvent]
  rw [if_pos ⟨hfb, hsome⟩, if_neg hge]

theorem doCycle_adv (s : RoomState) (r : String) (fb : Feedback)
    (hask : s.conversationState = ConversationState.asking)
    (hgen : s.isGeneratingQuestions = false)
    (htrim : jsTrim r ≠ "")
    (hlt : s.currentQuestionIndex + 1 < (newQs s fb).length) :
    (doCycle s r fb).conversationState = ConversationState.asking
    ∧ (doCycle s r fb).currentQuestionIndex = s.currentQuestionIndex + 1
    ∧ (doCycle s r fb).questions = newQs s fb
    ∧ (doCycle s r fb).isGeneratingQuestions = false := by
  unfold doCycle
  rw [submit_eq s r fb hask hgen htrim]
  rw [next_eq_adv
      { questions := newQs s fb,
        currentQuestionIndex := s.currentQuestionIndex,
        allResponses := newResp s r fb,
        conversationState := ConversationState.feedback,
        currentFeedback := some fb,
        isGeneratingQuestions := s.isGeneratingQuestions,
        interviewComplete := s.interviewComplete }
      rfl rfl hlt]
  exact ⟨rfl, rfl, rfl, hgen⟩

theorem doCycle_finish (s : RoomState) (r : String) (fb : Feedback)
    (hask : s.conversationState = ConversationState.asking)
    (hgen : s.isGeneratingQuestions = false)
    (htrim : jsTrim r ≠ "")
    (hge : ¬(s.currentQuestionIndex + 1 < (newQs s fb).length)) :
    (doCycle s r fb).conversationState = ConversationState.finalFeedback
    ∧ (doCycle s r fb).currentQuestionIndex = s.currentQuestionIndex
    ∧ (doCycle s r fb).questions = newQs s fb := by
  unfold doCycle
  rw [submit_eq s r fb hask hgen htrim]
  rw [next_eq_finish
      { questions := newQs s fb,
        currentQuestionIndex := s.currentQuestionIndex,
        allResponses := newResp s r fb,
        conversationState := ConversationState.feedback,
        currentFeedback := some fb,
        isGeneratingQuestions := s.isGeneratingQuestions,
        interviewComplete := s.interviewComplete }
      rfl rfl hge]
  exact ⟨rfl, rfl, rfl⟩

theorem noFollowUp_newQs (s : RoomState) :
    newQs s noFollowUpFeedback = s.questions := rfl

theorem runCycles_nil_spec (r : String) (htrim : jsTrim r ≠ "") :
    ∀ (k : Nat) (s : RoomState),
      s.conversationState = ConversationState.asking →
      s.isGeneratingQuestions = false →
      s.questions.length = s.currentQuestionIndex + k + 1 →
      (runCyclesL r s [] (k + 1)).conversationState
          = ConversationState.finalFeedback
      ∧ (runCyclesL r s [] (k + 1)).questions.length = s.questions.length := by
  intro k
  induction k with
  | zero =>
      intro s hask hgen hlen
      have step : runCyclesL r s [] 1 = doCycle s r noFollowUpFeedback := rfl
      rw [step]
      have hge : ¬(s.currentQuestionIndex + 1
          < (newQs s noFollowUpFeedback).length) := by
        rw [noFollowUp_newQs]
        omega
      have hfin := doCycle_finish s r noFollowUpFeedback hask hgen htrim hge
      refine ⟨hfin.1, ?_⟩
      rw [hfin.2.2, noFollowUp_newQs]
  | succ k ih =>
      intro s hask hgen hlen
      have hlt : s.currentQuestionIndex + 1
          < (newQs s noFollowUpFeedback).length := by
        rw [noFollowUp_newQs]
        omega
      have hadv := doCycle_adv s r noFollowUpFeedback hask hgen htrim hlt
      have hqlen : (doCycle s r noFollowUpFeedback).questions.length
          = s.questions.length := by
        rw [hadv.2.2.1, noFollowUp_newQs]
      have step : runCyclesL r s [] (k + 1 + 1)
          = runCyclesL r (doCycle s r noFollowUpFeedback) [] (k + 1) := rfl
      rw [step]
      have hrec := ih (doCycle s r noFollowUpFeedback) hadv.1 hadv.2.2.2
        (by rw [hqlen, hadv.2.1]; omega)
      exact ⟨hrec.1, by rw [hrec.2, hqlen]⟩

theorem runCycles_spec (r : String) (htrim : jsTrim r ≠ "") :
    ∀ (fbs : List Feedback) (s : RoomState),
      s.conversationState = ConversationState.asking →
      s.isGeneratingQuestions = false →
      s.currentQuestionIndex < s.questions.length →
      (runCyclesL r s fbs
          (cyclesToFinish s.currentQuestionIndex s.questions.length
            (fbs.map fbGrows))).conversationState
          = ConversationState.finalFeedback
      ∧ (runCyclesL r s fbs
          (cyclesToFinish s.currentQuestionIndex s.questions.length
            (fbs.map fbGrows))).questions.length
          = s.currentQuestionIndex +
              cyclesToFinish s.currentQuestionIndex s.questions.length
                (fbs.map fbGrows) := by
  intro fbs
  induction fbs with
  | nil =>
      intro s hask hgen hidx
      have hT : cyclesToFinish s.currentQuestionIndex s.questions.length
          (([] : List Feedback).map fbGrows)
          = s.questions.length - s.currentQuestionIndex := rfl
      rw [hT]
      obtain ⟨k, hk⟩ : ∃ k, s.questions.length = s.currentQuestionIndex + k + 1 :=
        ⟨s.questions.length - s.currentQuestionIndex - 1, by omega⟩
      have hT2 : s.questions.length - s.currentQuestionIndex = k + 1 := by omega
      rw [hT2]
      have h := runCycles_nil_spec r htrim k s hask hgen hk
      exact ⟨h.1, by rw [h.2]; omega⟩
  | cons fb rest ih =>
      intro s hask hgen hidx
      have hlen2 : (if fbGrows fb then s.questions.length + 1
          else s.questions.length) = (newQs s fb).length := by
        rw [newQs_length]
        cases fbGrows fb <;> simp
      have hcons : cyclesToFinish s.currentQuestionIndex s.questions.length
            (fbGrows fb :: rest.map fbGrows)
          = if s.currentQuestionIndex + 1 <
                (if fbGrows fb then s.questions.length + 1
                 else s.questions.length) then
              1 + cyclesToFinish (s.currentQuestionIndex + 1)
                    (if fbGrows fb then s.questions.length + 1
                     else s.questions.length)
                    (rest.map fbGrows)
            else 1 := rfl
      have hT : cyclesToFinish s.currentQuestionIndex s.questions.length
            ((fb :: rest).map fbGrows)
          = if s.currentQuestionIndex + 1 < (newQs s fb).length then
              1 + cyclesToFinish (s.currentQuestionIndex + 1) (newQs s fb).length
                    (rest.map fbGrows)
            else 1 := by
        rw [List.map_cons, hcons, hlen2]
      rw [hT]
      by_cases hlt : s.currentQuestionIndex + 1 < (newQs s fb).length
      · have hadv := doCycle_adv s r fb hask hgen htrim hlt
        rw [if_pos hlt, Nat.add_comm 1 _]
        have step : runCyclesL r s (fb :: rest)
            (cyclesToFinish (s.currentQuestionIndex + 1) (newQs s fb).length
              (rest.map fbGrows) + 1)
            = runCyclesL r (doCycle s r fb) rest
                (cyclesToFinish (s.currentQuestionIndex + 1) (newQs s fb).length
                  (rest.map fbGrows)) := rfl
        rw [step]
        have hrec := ih (doCycle s r fb) hadv.1 hadv.2.2.2
          (by rw [hadv.2.1, hadv.2.2.1]; exact hlt)
        rw [hadv.2.1, hadv.2.2.1] at hrec
        exact ⟨hrec.1, by rw [hrec.2]; omega⟩
      · have hfin := doCycle_finish s r fb hask hgen htrim hlt
        rw [if_neg hlt]
        have step : runCyclesL r s (fb :: rest) 1 = doCycle s r fb := rfl
        rw [step]
        refine ⟨hfin.1, ?_⟩
        have hup : s.questions.length ≤ (newQs s fb).length := by
          rw [newQs_length]
          cases fbGrows fb <;> simp
        rw [hfin.2.2]
        omega

/-- Counterexample to claim C3: under persistent remote failure the fallback
feedback always carries a follow-up, so each question/feedback cycle grows
the question list by one and Complete is NOT reached after
`len(Questions)` cycles.  Concretely: starting from an interview loaded with
2 questions and answering "Too short." each time, after 2 cycles (the
initial question count) the controller is still in the asking state with 4
questions, and after 4 more-than-initial cycles it is still asking with 6
questions — the interview never completes. -/
theorem C3_cycles_counterexample :
    (runCyclesL "Too short." (runEvents initialState
        [RoomEvent.questionsLoaded [qAlpha, qBeta], RoomEvent.greetingDone])
        (List.replicate 2 (fallbackFeedback "Too short.")) 2).conversationState
      = ConversationState.asking
    ∧ (runCyclesL "Too short." (runEvents initialState
        [RoomEvent.questionsLoaded [qAlpha, qBeta], RoomEvent.greetingDone])
        (List.replicate 2 (fallbackFeedback "Too short.")) 2).questions.length
      = 4
    ∧ (runCyclesL "Too short." (runEvents initialState
        [RoomEvent.questionsLoaded [qAlpha, qBeta], RoomEvent.greetingDone])
        (List.replicate 4 (fallbackFeedback "Too short.")) 4).conversationState
      ≠ ConversationState.complete
    ∧ (runCyclesL "Too short." (runEvents initialState
        [RoomEvent.questionsLoaded [qAlpha, qBeta], RoomEvent.greetingDone])
        (List.replicate 4 (fallbackFeedback "Too short.")) 4).questions.length
      = 6 := by
  decide

/-- Claim C3 as amended: starting from the asking state right after the
greeting, repeatedly submitting a non-blank answer and clicking "Next"
reaches the FinalFeedback state (and then Complete when its speech ends)
after exactly `len(Questions)` cycles, where `len(Questions)` is the FINAL
question count including appended follow-ups — provided follow-up questions
stop after finitely many answers (cycles beyond the feedback schedule `fbs`
carry no follow-up).  When every feedback carries a follow-up (as the
fallback feedback always does), the cycle count never catches up with the
question count and Complete is never reached. -/
theorem C3_cycles_amended (qs : List InterviewQuestion) (hqs : qs ≠ [])
    (r : String) (htrim : jsTrim r ≠ "") (fbs : List Feedback) :
    (runCyclesL r (runEvents initialState
        [RoomEvent.questionsLoaded qs, RoomEvent.greetingDone]) fbs
        (cyclesToFinish 0 qs.length (fbs.map fbGrows))).conversationState
      = ConversationState.finalFeedback
    ∧ (runCyclesL r (runEvents initialState
        [RoomEvent.questionsLoaded qs, RoomEvent.greetingDone]) fbs
        (cyclesToFinish 0 qs.length (fbs.map fbGrows))).questions.length
      = cyclesToFinish 0 qs.length (fbs.map fbGrows)
    ∧ (applyEvent (runCyclesL r (runEvents initialState
          [RoomEvent.questionsLoaded qs, RoomEvent.greetingDone]) fbs
          (cyclesToFinish 0 qs.length (fbs.map fbGrows)))
        RoomEvent.finalFeedbackDone).conversationState
      = ConversationState.complete := by
  have hs0 : runEvents initialState
      [RoomEvent.questionsLoaded qs, RoomEvent.greetingDone]
      = loadedState qs := rfl
  rw [hs0]
  have h := runCycles_spec r htrim fbs (loadedState qs) rfl rfl
    (List.length_pos.mpr hqs)
  rw [show (loadedState qs).currentQuestionIndex = 0 from rfl,
    show (loadedState qs).questions.length = qs.length from rfl] at h
  refine ⟨h.1, ?_, ?_⟩
  · have h2 := h.2
    rw [Nat.zero_add] at h2
    exact h2
  · simp only [applyEvent]
    rw [if_pos h.1]

/-- Witness for C3 (amended): one question, no follow-ups; the interview
finishes after exactly one cycle. -/
theorem C3_cycles_amended_witness :
    ([qAlpha] : List InterviewQuestion) ≠ []
    ∧ jsTrim "Fine answer." ≠ ""
    ∧ ((runCyclesL "Fine answer." (runEvents initialState
          [RoomEvent.questionsLoaded [qAlpha], RoomEvent.greetingDone]) []
          (cyclesToFinish 0 ([qAlpha] : List InterviewQuestion).length
            (([] : List Feedback).map fbGrows))).conversationState
        = ConversationState.finalFeedback
      ∧ (runCyclesL "Fine answer." (runEvents initialState
          [RoomEvent.questionsLoaded [qAlpha], RoomEvent.greetingDone]) []
          (cyclesToFinish 0 ([qAlpha] : List InterviewQuestion).length
            (([] : List Feedback).map fbGrows))).questions.length
        = cyclesToFinish 0 ([qAlpha] : List InterviewQuestion).length
            (([] : List Feedback).map fbGrows)
      ∧ (applyEvent (runCyclesL "Fine answer." (runEvents initialState
            [RoomEvent.questionsLoaded [qAlpha], RoomEvent.greetingDone]) []
            (cyclesToFinish 0 ([qAlpha] : List InterviewQuestion).length
              (([] : List Feedback).map fbGrows)))
          RoomEvent.finalFeedbackDone).conversationState
        = ConversationState.complete) :=
  ⟨by decide, by decide,
    C3_cycles_amended [qAlpha] (by decide) "Fine answer." (by decide) []⟩

/-- Witness for C9 at a concrete asking state with a short answer and two
failing attempts. -/
theorem C9_fallback_feedback_always_grows_witness :
    ([none, none] : List (Option Feedback)).all Option.isNone = true
    ∧ (runEvents initialState
        [RoomEvent.questionsLoaded [qAlpha, qBeta],
         RoomEvent.greetingDone]).conversationState = ConversationState.asking
    ∧ (runEvents initialState
        [RoomEvent.questionsLoaded [qAlpha, qBeta],
         RoomEvent.greetingDone]).isGeneratingQuestions = false
    ∧ jsTrim "I used Postgres." ≠ ""
    ∧ (optTruthy (getAIFeedback "Q" "I used Postgres." danaProfile
          [none, none]).followUpQuestion = true
      ∧ (applyEvent
            (runEvents initialState
              [RoomEvent.questionsLoaded [qAlpha, qBeta],
               RoomEvent.greetingDone])
            (RoomEvent.submitResponse "I used Postgres."
              (getAIFeedback "Q" "I used Postgres." danaProfile
                [none, none]))).questions.length
          = (runEvents initialState
              [RoomEvent.questionsLoaded [qAlpha, qBeta],
               RoomEvent.greetingDone]).questions.length + 1) :=
  ⟨by decide, by decide, by decide, by decide,
    C9_fallback_feedback_always_grows "Q" "I used Postgres." danaProfile
      [none, none] (by decide) _ (by decide) (by decide) (by decide)⟩

/-- Witness for C10: a browser session with no module key and empty local
storage. -/
theorem C10_modal_installs_builtin_key_witness :
    (hasApiKeyRun emptyKeyState).1 = false
    ∧ ((hasApiKeyRun (apiKeyModalMount emptyKeyState)).1 = true
      ∧ (apiKeyModalMount emptyKeyState).elevenLabsApiKey
          = some builtinElevenLabsApiKey
      ∧ (apiKeyModalMount emptyKeyState).storedApiKey
          = some builtinElevenLabsApiKey) :=
  ⟨by decide, C10_modal_installs_builtin_key emptyKeyState (by decide)⟩

theorem firstIdxOf_pre (oc : Char) :
    ∀ (pre : List Char), oc ∉ pre → ∀ (rest : List Char),
      firstIdxOf oc (pre ++ oc :: rest) = some pre.length := by
  intro pre
  induction pre with
  | nil =>
      intro _ rest
      simp [firstIdxOf]
  | cons a as ih =>
      intro h rest
      simp only [List.mem_cons, not_or] at h
      show firstIdxOf oc (a :: (as ++ oc :: rest)) = some (as.length + 1)
      simp only [firstIdxOf]
      rw [if_neg (fun hEq => h.1 hEq.symm)]
      rw [ih h.2 rest]
      rfl

theorem lastIdxOf_eq_none (cc : Char) :
    ∀ (l : List Char), cc ∉ l → lastIdxOf cc l = none := by
  intro l
  induction l with
  | nil => intro _; rfl
  | cons a as ih =>
      intro h
      simp only [List.mem_cons, not_or] at h
      show lastIdxOf cc (a :: as) = none
      simp only [lastIdxOf, ih h.2]
      rw [if_neg (fun hEq => h.1 hEq.symm)]

theorem lastIdxOf_append_of_not_mem (cc : Char) (post : List Char)
    (hpost : cc ∉ post) : ∀ (l : List Char),
      lastIdxOf cc (l ++ post) = lastIdxOf cc l := by
  intro l
  induction l with
  | nil =>
      show lastIdxOf cc post = lastIdxOf cc []
      rw [lastIdxOf_eq_none cc post hpost]
      rfl
  | cons a as ih =>
      show lastIdxOf cc (a :: (as ++ post)) = lastIdxOf cc (a :: as)
      simp only [lastIdxOf, ih]

theorem lastIdxOf_concat (cc : Char) :
    ∀ (x : List Char), lastIdxOf cc (x ++ [cc]) = some x.length := by
  intro x
  induction x with
  | nil => simp [lastIdxOf]
  | cons a as ih =>
      show lastIdxOf cc (a :: (as ++ [cc])) = some (as.length + 1)
      simp only [lastIdxOf, ih]

theorem balancedPrefixLen_append (oc cc : Char) :
    ∀ (xs : List Char) (d n : Nat),
      balancedPrefixLen oc cc xs d = some n →
      ∀ (ys : List Char), balancedPrefixLen oc cc (xs ++ ys) d = some n := by
  intro xs
  induction xs with
  | nil =>
      intro d n h ys
      exact absurd h (by simp [balancedPrefixLen])
  | cons c rest ih =>
      intro d n h ys
      show balancedPrefixLen oc cc (c :: (rest ++ ys)) d = some n
      simp only [balancedPrefixLen] at h ⊢
      by_cases h1 : c = cc
      · rw [if_pos h1] at h ⊢
        by_cases h2 : d = 1
        · rw [if_pos h2] at h ⊢
          exact h
        · rw [if_neg h2] at h ⊢
          cases hrec : balancedPrefixLen oc cc rest (d - 1) with
          | none => rw [hrec] at h; simp at h
          | some m =>
              rw [hrec] at h
              rw [ih (d - 1) m hrec ys]
              exact h
      · rw [if_neg h1] at h ⊢
        by_cases h3 : c = oc
        · rw [if_pos h3] at h ⊢
          cases hrec : balancedPrefixLen oc cc rest (d + 1) with
          | none => rw [hrec] at h; simp at h
          | some m =>
              rw [hrec] at h
              rw [ih (d + 1) m hrec ys]
              exact h
        · rw [if_neg h3] at h ⊢
          cases hrec : balancedPrefixLen oc cc rest d with
          | none => rw [hrec] at h; simp at h
          | some m =>
              rw [hrec] at h
              rw [ih d m hrec ys]
              exact h

theorem specFirst_skip (oc cc : Char) :
    ∀ (pre : List Char), oc ∉ pre → ∀ (rest : List Char),
      specFirstBalancedLiteral oc cc (pre ++ rest)
        = specFirstBalancedLiteral oc cc rest := by
  intro pre
  induction pre with
  | nil => intro _ rest; rfl
  | cons a as ih =>
      intro h rest
      simp only [List.mem_cons, not_or] at h
      show specFirstBalancedLiteral oc cc (a :: (as ++ rest)) = _
      simp only [specFirstBalancedLiteral]
      rw [if_neg (fun hEq => h.1 hEq.symm)]
      exact ih h.2 rest

/-- Counterexample to claim C6: the extraction does NOT yield the first
well-formed literal when extra bracketed material follows it.  On the
response text `[1] and [2]` the greedy regex `/\[[\s\S]*\]/` matches the
whole span from the first opening to the LAST closing bracket, `[1] and
[2]` — not the first well-formed array literal `[1]` (that larger span is
not parseable JSON, so the attempt fails instead of yielding the first
literal).  The object extraction of `getAIFeedback` behaves the same on a
text with two brace literals. -/
theorem C6_extraction_counterexample :
    regexSpanMatch '[' ']' "[1] and [2]".data = some "[1] and [2]".data
    ∧ specFirstBalancedLiteral '[' ']' "[1] and [2]".data = some "[1]".data
    ∧ "[1] and [2]".data ≠ "[1]".data
    ∧ regexSpanMatch lbraceChar rbraceChar "\x7b1\x7d x \x7b2\x7d".data
        = some "\x7b1\x7d x \x7b2\x7d".data
    ∧ specFirstBalancedLiteral lbraceChar rbraceChar
        "\x7b1\x7d x \x7b2\x7d".data = some "\x7b1\x7d".data := by
  decide

/-- Claim C6 as amended: the extraction takes the span from the FIRST
opening bracket to the LAST closing bracket of the response text (greedy
regex), so it coincides with the first well-formed (bracket-balanced)
literal exactly when no closing bracket occurs after that literal and no
opening bracket before it: for a text `pre ++ [oc] ++ mid0 ++ [cc] ++ post`
whose literal `oc :: mid0 ++ [cc]` is balanced, with no opening bracket in
`pre` and no closing bracket in `post`, both the regex match and the
first-balanced-literal extraction return exactly that literal.  (Stated for
a generic bracket pair: instantiating `oc`/`cc` with square brackets gives
`generateQuestions`'s array extraction, with braces `getAIFeedback`'s
object extraction.) -/
theorem C6_extraction_amended (oc cc : Char) (pre mid0 post : List Char)
    (hoc : oc ∉ pre) (hcc : cc ∉ post)
    (hb : balancedPrefixLen oc cc (mid0 ++ [cc]) 1 = some (mid0.length + 1)) :
    regexSpanMatch oc cc (pre ++ oc :: (mid0 ++ [cc] ++ post))
      = some (oc :: (mid0 ++ [cc]))
    ∧ specFirstBalancedLiteral oc cc (pre ++ oc :: (mid0 ++ [cc] ++ post))
      = some (oc :: (mid0 ++ [cc])) := by
  constructor
  · have hfi : firstIdxOf oc (pre ++ oc :: (mid0 ++ [cc] ++ post))
        = some pre.length := firstIdxOf_pre oc pre hoc _
    have hassoc : pre ++ oc :: (mid0 ++ [cc] ++ post)
        = ((pre ++ oc :: mid0) ++ [cc]) ++ post := by
      simp [List.append_assoc]
    have hli : lastIdxOf cc (pre ++ oc :: (mid0 ++ [cc] ++ post))
        = some (pre.length + mid0.length + 1) := by
      rw [hassoc, lastIdxOf_append_of_not_mem cc post hcc, lastIdxOf_concat]
      simp [List.length_append]
      omega
    simp only [regexSpanMatch, hfi, hli]
    rw [if_pos (by omega : pre.length < pre.length + mid0.length + 1)]
    congr 1
    unfold sliceIncl
    rw [show pre.length + mid0.length + 1 + 1 - pre.length
        = mid0.length + 1 + 1 from by omega]
    rw [List.drop_left pre (oc :: (mid0 ++ [cc] ++ post))]
    rw [List.take_succ_cons]
    congr 1
    rw [show mid0.length + 1 = (mid0 ++ [cc]).length from by simp]
    exact List.take_left _ _
  · rw [specFirst_skip oc cc pre hoc]
    show specFirstBalancedLiteral oc cc (oc :: (mid0 ++ [cc] ++ post)) = _
    simp only [specFirstBalancedLiteral, if_true]
    rw [balancedPrefixLen_append oc cc (mid0 ++ [cc]) 1 (mid0.length + 1)
      hb post]
    simp only [Option.map_some']
    congr 1
    congr 1
    rw [show mid0.length + 1 = (mid0 ++ [cc]).length from by simp]
    exact List.take_left _ _

/-- Witness for C6 (amended) on the text `x [1] y`: the single literal is
extracted by both the regex and the bracket-matching specification. -/
theorem C6_extraction_amended_witness :
    ('[' ∉ "x ".data)
    ∧ (']' ∉ " y".data)
    ∧ balancedPrefixLen '[' ']' ("1".data ++ [']']) 1
        = some ("1".data.length + 1)
    ∧ (regexSpanMatch '[' ']'
          ("x ".data ++ '[' :: ("1".data ++ [']'] ++ " y".data))
        = some ('[' :: ("1".data ++ [']']))
      ∧ specFirstBalancedLiteral '[' ']'
          ("x ".data ++ '[' :: ("1".data ++ [']'] ++ " y".data))
        = some ('[' :: ("1".data ++ [']']))) :=
  ⟨by decide, by decide, by decide,
    C6_extraction_amended '[' ']' "x ".data "1".data " y".data
      (by decide) (by decide) (by decide)⟩

end Interviewly
